import Mathlib

/-!
### The date model and `generate_weekly_dates`
-/

/-- CPython `datetime._is_leap`. -/
def isLeap (y : Nat) : Bool := (y % 4 == 0 && y % 100 != 0) || y % 400 == 0

/-- Month lengths of a common year, as in CPython `datetime._DAYS_IN_MONTH`. -/
def monthDays : List Nat := [31, 28, 31, 30, 31, 30, 31, 31, 30, 31, 30, 31]

/-- CPython `datetime._days_before_month`. -/
def daysBeforeMonth (y m : Nat) : Nat :=
  (monthDays.take (m - 1)).sum + (if 2 < m && isLeap y then 1 else 0)

/-- CPython `datetime._ymd2ord`: the proleptic Gregorian ordinal of a date. -/
def toOrdinal (y m d : Nat) : Nat :=
  (y - 1) * 365 + (y - 1) / 4 - (y - 1) / 100 + (y - 1) / 400 + daysBeforeMonth y m + d

/-- Python `date.weekday()` (Monday = 0 .. Sunday = 6) of an ordinal. -/
def pyWeekday (n : Nat) : Nat := (n - 1) % 7

/-- An ordinal is a Sunday iff it is divisible by 7 (ordinal 7 = 0001-01-07
was a Sunday). -/
def isSunday (n : Nat) : Bool := n % 7 == 0

/-- The `while current_date <= end_date_obj` loop of `generate_weekly_dates`
(`weekly_best_book_seller.py` lines 29-34): collect `current` and step by one
week while `current` has not passed `end_adj`. -/
def weeklyLoop (current end_adj : Nat) : List Nat :=
  if current ≤ end_adj then current :: weeklyLoop (current + 7) end_adj
  else []
termination_by end_adj + 1 - current

/-- `generate_weekly_dates` (`weekly_best_book_seller.py` lines 14-35) on
ordinals: add one week to the end date, pull the start date back to the
previous Sunday (`days_to_previous_sunday = (weekday + 1) % 7`, which for an
ordinal `n ≥ 1` equals `n % 7`), then walk week by week. -/
def generate_weekly_dates (start_d end_d : Nat) : List Nat :=
  let end_adj := end_d + 7
  let start_adj := start_d - (pyWeekday start_d + 1) % 7
  weeklyLoop start_adj end_adj

/-!
### Records, task outcomes and the retrying task runners

A scraped record is a Python dict with string keys and values, modelled as an
association list.  Each `requests.get` attempt of a task is answered by an
environment `o : Nat → AttemptOutcome _` giving the outcome of attempt
number `i` (the value of the `retry` parameter at that call).  `time.sleep`
delays do not affect any value and are not modelled.
-/

/-- A bestseller record (the `book_info` dict of
`weekly_best_book_seller.py` lines 60-66). -/
abbrev Book := List (String × String)

/-- An advisor record (the `info` dict of `finansial_advisor.py`
lines 133-140). -/
abbrev AdvisorInfo := List (String × String)

/-- The outcome of one HTTP attempt of a task, as the task body observes it:
`ok v` — the GET returns 2xx and extraction of the primary container
succeeds, producing `v`; `okMalformed` — the GET returns 2xx but the primary
container is absent, so the extraction code raises (TypeError of iterating
None, AttributeError of `.text` on None, or IndexError); `err s` —
`raise_for_status` raises `requests.RequestException` for the non-2xx
status `s`. -/
inductive AttemptOutcome (α : Type)
  | ok (val : α)
  | okMalformed
  | err (status : Nat)
deriving DecidableEq

/-- The retry ceiling hard-coded as the literal `3` in the `retry < 3`
checks of all three scraper functions. -/
def retryCeiling : Nat := 3

/-- `scrape_nyt_best_sellers` (`weekly_best_book_seller.py` lines 37-79) run
against environment `o`, entered with attempt index `retry`.  First
component: the Python outcome of the call — `Except.ok books` for a normal
return (a permanently failed fetch returns `[]` at line 79), `Except.error
()` when an exception escapes the call (the malformed-page exception is not
caught: the handler at line 72 only catches `requests.RequestException`).
Second component: the index of the last attempt performed plus one, i.e. the
total attempt count when entered with `retry = 0`. -/
def scrape_nyt_run (o : Nat → AttemptOutcome (List Book)) (retry : Nat) :
    Except Unit (List Book) × Nat :=
  match o retry with
  | .ok books => (Except.ok books, retry + 1)
  | .okMalformed => (Except.error (), retry + 1)
  | .err _ =>
    if retry < 3 then scrape_nyt_run o (retry + 1)
    else (Except.ok [], retry + 1)
termination_by 4 - retry

/-- `scrape_advisor_by_state_and_city` (`finansial_advisor.py` lines 47-98)
run against environment `o`.  A malformed page is caught by the trailing
`except Exception` handler (lines 96-98), which logs and falls through,
returning `None` with no retry; a `requests.RequestException` is retried
while `retry < 3`, else `None` is returned (line 95). -/
def scrape_city_run (o : Nat → AttemptOutcome (List String)) (retry : Nat) :
    Option (List String) × Nat :=
  match o retry with
  | .ok links => (some links, retry + 1)
  | .okMalformed => (none, retry + 1)
  | .err _ =>
    if retry < 3 then scrape_city_run o (retry + 1)
    else (none, retry + 1)
termination_by 4 - retry

/-- `scrape_advisor` (`finansial_advisor.py` lines 101-158) run against
environment `o`: same retry structure, with the malformed page caught at
lines 156-158 returning `None` with no retry. -/
def scrape_advisor_run (o : Nat → AttemptOutcome AdvisorInfo) (retry : Nat) :
    Option AdvisorInfo × Nat :=
  match o retry with
  | .ok info => (some info, retry + 1)
  | .okMalformed => (none, retry + 1)
  | .err _ =>
    if retry < 3 then scrape_advisor_run o (retry + 1)
    else (none, retry + 1)
termination_by 4 - retry

/-!
### Stage collection loops

The thread pools collect futures with `as_completed`, so completion order is
a permutation of submission order.  The collection loops are modelled on the
list of per-task results in completion order; every property proved below is
invariant under the choice of that order.
-/

/-- The result-collection loop of `scrape_all_best_sellers`
(`weekly_best_book_seller.py` lines 94-104): `future.result()` is appended
to `results` whatever list it is (including the empty list a permanently
failed week returns); a future whose call raised is only logged (line 101)
and contributes nothing. -/
def scrape_all_collect : List (Except Unit (List Book)) → List (List Book)
  | [] => []
  | Except.ok week_data :: rest => week_data :: scrape_all_collect rest
  | Except.error _ :: rest => scrape_all_collect rest

/-- The Python truthiness test `if links:` of `finansial_advisor.py` line
183: `None` and the empty list are falsy. -/
def acceptedByMain : Option (List String) → Bool
  | some links => !links.isEmpty
  | none => false

/-- The link-collection loop of `main` (`finansial_advisor.py` lines
178-187): `advisor_links.extend(links)` for each truthy result; `None`
results (permanent failures) and empty lists are skipped. -/
def collect_city_links : List (Option (List String)) → List String
  | [] => []
  | r :: rest => (if acceptedByMain r then r.getD [] else []) ++ collect_city_links rest

/-- The observable aggregate of the city stage of `main`
(`finansial_advisor.py` lines 172-187): the collected successor links
together with the list of permanently-failed inputs the stage records.  The
`except` branch at lines 186-187 only logs, and `main` keeps no other
failure accumulator, so the recorded failed list is the empty list. -/
def advisor_city_stage (rs : List (Option (List String))) :
    List String × List String :=
  (collect_city_links rs, [])

/-!
### `save_to_csv` and the dynamic typing of its input

`save_to_csv` iterates its argument twice (`for week_data in data: for book
in week_data`) and hands each inner element to `csv.DictWriter.writerow`.
Its callers pass flat lists of dicts, so the Python values reaching the
writer must be modelled dynamically: `PyVal` covers the strings, dicts and
lists involved, and `pyIter` is Python iteration (a list yields its
elements, a dict its keys, a string its characters).
-/

/-- A Python value reaching `save_to_csv`. -/
inductive PyVal
  | str (s : String)
  | dict (kvs : List (String × String))
  | list (xs : List PyVal)

/-- Python iteration `for x in v`. -/
def pyIter : PyVal → List PyVal
  | .list xs => xs
  | .dict kvs => kvs.map (fun kv => PyVal.str kv.1)
  | .str s => s.toList.map (fun c => PyVal.str (String.mk [c]))

/-- The field names hard-coded in `save_to_csv` (`helpers/utils.py` line
21), used for every caller of the writer. -/
def fieldnames : List String :=
  ["Date", "Book Name", "Book Author", "Book Description",
   "Weeks on the List/New This Week"]

/-- `csv.DictWriter.writerow` with the default `extrasaction` of `raise`: a
non-mapping argument raises AttributeError (no `.keys`); a dict with a key
outside the fieldnames raises ValueError; otherwise one row is written, a
missing field as the empty string. -/
def writerow (v : PyVal) : Except String (List String) :=
  match v with
  | .dict kvs =>
    if kvs.all (fun kv => fieldnames.contains kv.1) then
      Except.ok (fieldnames.map (fun f =>
        ((kvs.find? (fun kv => kv.1 == f)).map Prod.snd).getD ""))
    else Except.error "ValueError"
  | _ => Except.error "AttributeError"

/-- The row-writing loop of `save_to_csv` (`helpers/utils.py` lines 25-27),
over the already-flattened iteration sequence. -/
def writeRows : List PyVal → Except String (List (List String))
  | [] => Except.ok []
  | r :: rest => do
    let row ← writerow r
    let rows ← writeRows rest
    pure (row :: rows)

/-- `save_to_csv` (`helpers/utils.py` lines 5-29) as the rows of the file it
writes: the header (line 22), then one row per `writerow` call of the nested
loop.  `Except.error e` models the exception `e` escaping the writer. -/
def save_to_csv (data : PyVal) : Except String (List (List String)) := do
  let body ← writeRows ((pyIter data).flatMap pyIter)
  pure (fieldnames :: body)

/-- The save call of `main` in `weekly_best_book_seller.py` (lines 119-122):
the per-week lists are flattened by `chain.from_iterable` into one flat list
of book dicts and passed to `save_to_csv`. -/
def nyt_main_save (all_best_sellers : List (List Book)) :
    Except String (List (List String)) :=
  save_to_csv (PyVal.list (all_best_sellers.flatten.map PyVal.dict))

/-- `main` of `finansial_advisor.py` (lines 160-208), parameterised by the
directory-stage result and by the attempt environments of the city and
advisor stages.  `Except.error msg` models `main` logging `msg` as an error
and returning without writing any file (lines 165-167), or an exception
escaping the run; `Except.ok rows` a completed run whose output file holds
`rows`.  The truthiness checks at lines 183 and 198 skip falsy results. -/
def advisor_main_run (cities : Option (List String))
    (cityOut : String → Nat → AttemptOutcome (List String))
    (advOut : String → Nat → AttemptOutcome AdvisorInfo) :
    Except String (List (List String)) :=
  match cities with
  | none => Except.error "No cities found."
  | some cs =>
    if cs.isEmpty then Except.error "No cities found."
    else
      let cityResults := cs.map (fun c => (scrape_city_run (cityOut c) 0).1)
      let advisor_links := collect_city_links cityResults
      let advisorResults := advisor_links.map (fun l => (scrape_advisor_run (advOut l) 0).1)
      let all_advisor_data := advisorResults.filterMap (fun r =>
        match r with
        | some info => if info.isEmpty then none else some info
        | none => none)
      save_to_csv (PyVal.list (all_advisor_data.map PyVal.dict))

/-!
### Concrete sample data and environments
-/

/-- A sample bestseller record, shaped as `book_info` builds it. -/
def sample_book : Book :=
  [("Date", "2019/01/06"), ("Book Name", "Becoming"),
   ("Book Author", "Michelle Obama"), ("Book Description", "N/A"),
   ("Weeks on the List/New This Week", "8")]

/-- A sample advisor record, shaped as `info` builds it
(`finansial_advisor.py` lines 133-140). -/
def sample_advisor : AdvisorInfo :=
  [("First", "Jane"), ("Last", "Doe"), ("Street", "1 Main Street"),
   ("City", "Springfield"), ("State", "IL"), ("Telephone", "555-0100")]

/-- Attempt environment of the C9 scenario: attempts 0 and 1 answer HTTP
503, attempt 2 succeeds with one extracted record. -/
def c9_outcomes : Nat → AttemptOutcome (List Book) := fun i =>
  if i < 2 then AttemptOutcome.err 503 else AttemptOutcome.ok [sample_book]

/-- Attempt environment with a 404 on the first attempt and success
afterwards. -/
def c3_outcomes : Nat → AttemptOutcome (List Book) := fun i =>
  if i = 0 then AttemptOutcome.err 404 else AttemptOutcome.ok [sample_book]

/-- Whether an attempt outcome is an HTTP failure. -/
def isErrAttempt {α : Type} : AttemptOutcome α → Bool
  | AttemptOutcome.err _ => true
  | _ => false

/-!
### Unfolding equations of the recursively defined functions
-/

theorem weeklyLoop_eq (current end_adj : Nat) :
    weeklyLoop current end_adj =
      if current ≤ end_adj then current :: weeklyLoop (current + 7) end_adj
      else [] := by
  rw [weeklyLoop]

theorem scrape_nyt_run_eq (o : Nat → AttemptOutcome (List Book)) (retry : Nat) :
    scrape_nyt_run o retry =
      match o retry with
      | .ok books => (Except.ok books, retry + 1)
      | .okMalformed => (Except.error (), retry + 1)
      | .err _ =>
        if retry < 3 then scrape_nyt_run o (retry + 1)
        else (Except.ok [], retry + 1) := by
  rw [scrape_nyt_run]

theorem scrape_city_run_eq (o : Nat → AttemptOutcome (List String)) (retry : Nat) :
    scrape_city_run o retry =
      match o retry with
      | .ok links => (some links, retry + 1)
      | .okMalformed => (none, retry + 1)
      | .err _ =>
        if retry < 3 then scrape_city_run o (retry + 1)
        else (none, retry + 1) := by
  rw [scrape_city_run]

theorem scrape_advisor_run_eq (o : Nat → AttemptOutcome AdvisorInfo) (retry : Nat) :
    scrape_advisor_run o retry =
      match o retry with
      | .ok info => (some info, retry + 1)
      | .okMalformed => (none, retry + 1)
      | .err _ =>
        if retry < 3 then scrape_advisor_run o (retry + 1)
        else (none, retry + 1) := by
  rw [scrape_advisor_run]

/-!
### Lemmas about `generate_weekly_dates`
-/

/-- For `n ≥ 1`, the Python distance to the previous Sunday is `n % 7`. -/
theorem weekday_shift (n : Nat) (h : 1 ≤ n) : (pyWeekday n + 1) % 7 = n % 7 := by
  unfold pyWeekday
  omega

theorem weeklyLoop_sound :
    ∀ fuel current end_adj, end_adj + 1 - current ≤ fuel →
      ∀ d ∈ weeklyLoop current end_adj,
        current ≤ d ∧ d ≤ end_adj ∧ d % 7 = current % 7 := by
  intro fuel
  induction fuel with
  | zero =>
    intro current end_adj hf d hd
    rw [weeklyLoop_eq] at hd
    rw [if_neg (by omega)] at hd
    simp at hd
  | succ n ih =>
    intro current end_adj hf d hd
    rw [weeklyLoop_eq] at hd
    by_cases hc : current ≤ end_adj
    · rw [if_pos hc] at hd
      rcases List.mem_cons.mp hd with h | h
      · omega
      · have := ih (current + 7) end_adj (by omega) d h
        omega
    · rw [if_neg hc] at hd
      simp at hd

theorem weeklyLoop_complete :
    ∀ k current end_adj, current + 7 * k ≤ end_adj →
      current + 7 * k ∈ weeklyLoop current end_adj := by
  intro k
  induction k with
  | zero =>
    intro current end_adj h
    rw [weeklyLoop_eq, if_pos (by omega)]
    simp
  | succ n ih =>
    intro current end_adj h
    rw [weeklyLoop_eq, if_pos (by omega)]
    have := ih (current + 7) end_adj (by omega)
    refine List.mem_cons.mpr (Or.inr ?_)
    have heq : current + 7 + 7 * n = current + 7 * (n + 1) := by ring
    rwa [heq] at this

theorem weeklyLoop_chain :
    ∀ fuel current end_adj, end_adj + 1 - current ≤ fuel →
      (weeklyLoop current end_adj).Chain' (· < ·) := by
  intro fuel
  induction fuel with
  | zero =>
    intro current end_adj hf
    rw [weeklyLoop_eq]
    by_cases hc : current ≤ end_adj
    · omega
    · rw [if_neg hc]; exact List.chain'_nil
  | succ n ih =>
    intro current end_adj hf
    rw [weeklyLoop_eq]
    by_cases hc : current ≤ end_adj
    · rw [if_pos hc]
      have htail := ih (current + 7) end_adj (by omega)
      refine List.chain'_cons'.mpr ⟨?_, htail⟩
      intro y hy
      rw [weeklyLoop_eq] at hy
      by_cases hc7 : current + 7 ≤ end_adj
      · rw [if_pos hc7] at hy
        simp at hy
        omega
      · rw [if_neg hc7] at hy
        simp at hy
    · rw [if_neg hc]; exact List.chain'_nil

theorem weeklyLoop_mem (current end_adj d : Nat) (h1 : current ≤ d)
    (h2 : d ≤ end_adj) (h3 : d % 7 = current % 7) :
    d ∈ weeklyLoop current end_adj := by
  obtain ⟨k, hk⟩ : ∃ k, d = current + 7 * k := ⟨(d - current) / 7, by omega⟩
  subst hk
  exact weeklyLoop_complete k current end_adj h2

/-!
### Attempt-count bounds of the retrying runners
-/

theorem scrape_nyt_run_snd_le :
    ∀ fuel (o : Nat → AttemptOutcome (List Book)) retry, 4 - retry ≤ fuel →
      (scrape_nyt_run o retry).2 ≤ max (retry + 1) 4 := by
  intro fuel
  induction fuel with
  | zero =>
    intro o retry hf
    rw [scrape_nyt_run_eq]
    split
    · simp
    · simp
    · rw [if_neg (by omega)]; simp
  | succ n ih =>
    intro o retry hf
    rw [scrape_nyt_run_eq]
    split
    · simp
    · simp
    · by_cases hlt : retry < 3
      · rw [if_pos hlt]
        have := ih o (retry + 1) (by omega)
        omega
      · rw [if_neg hlt]; simp

theorem scrape_nyt_run_snd_ge :
    ∀ fuel (o : Nat → AttemptOutcome (List Book)) retry, 4 - retry ≤ fuel →
      retry + 1 ≤ (scrape_nyt_run o retry).2 := by
  intro fuel
  induction fuel with
  | zero =>
    intro o retry hf
    rw [scrape_nyt_run_eq]
    split
    · simp
    · simp
    · rw [if_neg (by omega)]
  | succ n ih =>
    intro o retry hf
    rw [scrape_nyt_run_eq]
    split
    · simp
    · simp
    · by_cases hlt : retry < 3
      · rw [if_pos hlt]
        have := ih o (retry + 1) (by omega)
        omega
      · rw [if_neg hlt]

theorem scrape_advisor_run_snd_le :
    ∀ fuel (o : Nat → AttemptOutcome AdvisorInfo) retry, 4 - retry ≤ fuel →
      (scrape_advisor_run o retry).2 ≤ max (retry + 1) 4 := by
  intro fuel
  induction fuel with
  | zero =>
    intro o retry hf
    rw [scrape_advisor_run_eq]
    split
    · simp
    · simp
    · rw [if_neg (by omega)]; simp
  | succ n ih =>
    intro o retry hf
    rw [scrape_advisor_run_eq]
    split
    · simp
    · simp
    · by_cases hlt : retry < 3
      · rw [if_pos hlt]
        have := ih o (retry + 1) (by omega)
        omega
      · rw [if_neg hlt]; simp

theorem scrape_advisor_run_snd_ge :
    ∀ fuel (o : Nat → AttemptOutcome AdvisorInfo) retry, 4 - retry ≤ fuel →
      retry + 1 ≤ (scrape_advisor_run o retry).2 := by
  intro fuel
  induction fuel with
  | zero =>
    intro o retry hf
    rw [scrape_advisor_run_eq]
    split
    · simp
    · simp
    · rw [if_neg (by omega)]
  | succ n ih =>
    intro o retry hf
    rw [scrape_advisor_run_eq]
    split
    · simp
    · simp
    · by_cases hlt : retry < 3
      · rw [if_pos hlt]
        have := ih o (retry + 1) (by omega)
        omega
      · rw [if_neg hlt]

/-!
### Resolution is final: outcomes after the resolving attempt are never read

`scrape_nyt_run o retry` performs the attempts `retry, …,
(scrape_nyt_run o retry).2 - 1`; changing the environment at any later
index leaves the resolution unchanged, which is the run-level statement
that a task never leaves `succeeded` or `failed` once resolved.
-/

theorem scrape_nyt_run_frame :
    ∀ fuel (o o₂ : Nat → AttemptOutcome (List Book)) retry, 4 - retry ≤ fuel →
      (∀ i, retry ≤ i → i < (scrape_nyt_run o retry).2 → o₂ i = o i) →
      scrape_nyt_run o₂ retry = scrape_nyt_run o retry := by
  intro fuel
  induction fuel with
  | zero =>
    intro o o₂ retry hf h
    have hi : o₂ retry = o retry :=
      h retry le_rfl (by have := scrape_nyt_run_snd_ge 4 o retry (by omega); omega)
    cases ho : o retry with
    | ok books =>
      rw [scrape_nyt_run_eq o₂ retry, scrape_nyt_run_eq o retry, hi, ho]
    | okMalformed =>
      rw [scrape_nyt_run_eq o₂ retry, scrape_nyt_run_eq o retry, hi, ho]
    | err s =>
      have hrw : scrape_nyt_run o retry
          = if retry < 3 then scrape_nyt_run o (retry + 1) else (Except.ok [], retry + 1) := by
        rw [scrape_nyt_run_eq o retry, ho]
      have hrw2 : scrape_nyt_run o₂ retry
          = if retry < 3 then scrape_nyt_run o₂ (retry + 1) else (Except.ok [], retry + 1) := by
        rw [scrape_nyt_run_eq o₂ retry, hi, ho]
      rw [hrw, hrw2, if_neg (by omega), if_neg (by omega)]
  | succ n ih =>
    intro o o₂ retry hf h
    have hi : o₂ retry = o retry :=
      h retry le_rfl (by have := scrape_nyt_run_snd_ge 4 o retry (by omega); omega)
    cases ho : o retry with
    | ok books =>
      rw [scrape_nyt_run_eq o₂ retry, scrape_nyt_run_eq o retry, hi, ho]
    | okMalformed =>
      rw [scrape_nyt_run_eq o₂ retry, scrape_nyt_run_eq o retry, hi, ho]
    | err s =>
      have hrw : scrape_nyt_run o retry
          = if retry < 3 then scrape_nyt_run o (retry + 1) else (Except.ok [], retry + 1) := by
        rw [scrape_nyt_run_eq o retry, ho]
      have hrw2 : scrape_nyt_run o₂ retry
          = if retry < 3 then scrape_nyt_run o₂ (retry + 1) else (Except.ok [], retry + 1) := by
        rw [scrape_nyt_run_eq o₂ retry, hi, ho]
      rw [hrw, hrw2]
      by_cases hlt : retry < 3
      · rw [if_pos hlt, if_pos hlt]
        refine ih o o₂ (retry + 1) (by omega) ?_
        intro i h1 h2
        refine h i (by omega) ?_
        rw [hrw, if_pos hlt]
        exact h2
      · rw [if_neg hlt, if_neg hlt]

theorem scrape_advisor_run_frame :
    ∀ fuel (o o₂ : Nat → AttemptOutcome AdvisorInfo) retry, 4 - retry ≤ fuel →
      (∀ i, retry ≤ i → i < (scrape_advisor_run o retry).2 → o₂ i = o i) →
      scrape_advisor_run o₂ retry = scrape_advisor_run o retry := by
  intro fuel
  induction fuel with
  | zero =>
    intro o o₂ retry hf h
    have hi : o₂ retry = o retry :=
      h retry le_rfl (by have := scrape_advisor_run_snd_ge 4 o retry (by omega); omega)
    cases ho : o retry with
    | ok info =>
      rw [scrape_advisor_run_eq o₂ retry, scrape_advisor_run_eq o retry, hi, ho]
    | okMalformed =>
      rw [scrape_advisor_run_eq o₂ retry, scrape_advisor_run_eq o retry, hi, ho]
    | err s =>
      have hrw : scrape_advisor_run o retry
          = if retry < 3 then scrape_advisor_run o (retry + 1) else (none, retry + 1) := by
        rw [scrape_advisor_run_eq o retry, ho]
      have hrw2 : scrape_advisor_run o₂ retry
          = if retry < 3 then scrape_advisor_run o₂ (retry + 1) else (none, retry + 1) := by
        rw [scrape_advisor_run_eq o₂ retry, hi, ho]
      rw [hrw, hrw2, if_neg (by omega), if_neg (by omega)]
  | succ n ih =>
    intro o o₂ retry hf h
    have hi : o₂ retry = o retry :=
      h retry le_rfl (by have := scrape_advisor_run_snd_ge 4 o retry (by omega); omega)
    cases ho : o retry with
    | ok info =>
      rw [scrape_advisor_run_eq o₂ retry, scrape_advisor_run_eq o retry, hi, ho]
    | okMalformed =>
      rw [scrape_advisor_run_eq o₂ retry, scrape_advisor_run_eq o retry, hi, ho]
    | err s =>
      have hrw : scrape_advisor_run o retry
          = if retry < 3 then scrape_advisor_run o (retry + 1) else (none, retry + 1) := by
        rw [scrape_advisor_run_eq o retry, ho]
      have hrw2 : scrape_advisor_run o₂ retry
          = if retry < 3 then scrape_advisor_run o₂ (retry + 1) else (none, retry + 1) := by
        rw [scrape_advisor_run_eq o₂ retry, hi, ho]
      rw [hrw, hrw2]
      by_cases hlt : retry < 3
      · rw [if_pos hlt, if_pos hlt]
        refine ih o o₂ (retry + 1) (by omega) ?_
        intro i h1 h2
        refine h i (by omega) ?_
        rw [hrw, if_pos hlt]
        exact h2
      · rw [if_neg hlt, if_neg hlt]

/-!
### Other helper lemmas
-/

theorem exists_err {α : Type} (a : AttemptOutcome α) (h : isErrAttempt a = true) :
    ∃ s, a = AttemptOutcome.err s := by
  cases a with
  | ok v => simp [isErrAttempt] at h
  | okMalformed => simp [isErrAttempt] at h
  | err s => exact ⟨s, rfl⟩

theorem scrape_all_collect_append_ok (ws : List (Except Unit (List Book)))
    (l : List Book) :
    scrape_all_collect (ws ++ [Except.ok l]) = scrape_all_collect ws ++ [l] := by
  induction ws with
  | nil => rfl
  | cons w rest ih =>
    cases w with
    | ok x => simp [scrape_all_collect, ih]
    | error e => simp [scrape_all_collect, ih]

/-!
### The claims
-/

/-- Claim C6: for every valid start/end ordinal pair with the start date not
after the end date, the weekly sequence of `generate_weekly_dates` is
strictly increasing, every generated ordinal is a Sunday, and the sequence
contains the Sunday of the Sunday-started week containing the end date as
well as the Sunday one week beyond it, which lies strictly after the end
date. -/
theorem c6_weekly_dates_sound (s e : Nat) (hs : 1 ≤ s) (hse : s ≤ e) :
    (generate_weekly_dates s e).Chain' (· < ·)
    ∧ (∀ d ∈ generate_weekly_dates s e, isSunday d = true)
    ∧ (e - e % 7) ∈ generate_weekly_dates s e
    ∧ (e - e % 7 + 7) ∈ generate_weekly_dates s e
    ∧ e < e - e % 7 + 7 := by
  have hshift : (pyWeekday s + 1) % 7 = s % 7 := weekday_shift s hs
  simp only [generate_weekly_dates]
  rw [hshift]
  refine ⟨weeklyLoop_chain (e + 8) _ _ (by omega), ?_, ?_, ?_, by omega⟩
  · intro d hd
    have h := weeklyLoop_sound (e + 8) _ _ (by omega) d hd
    simp only [isSunday, beq_iff_eq]
    omega
  · exact weeklyLoop_mem _ _ _ (by omega) (by omega) (by omega)
  · exact weeklyLoop_mem _ _ _ (by omega) (by omega) (by omega)

/-- Witness for C6 at the concrete pair (10, 20). -/
theorem c6_weekly_dates_sound_witness :
    (generate_weekly_dates 10 20).Chain' (· < ·)
    ∧ (∀ d ∈ generate_weekly_dates 10 20, isSunday d = true)
    ∧ (20 - 20 % 7) ∈ generate_weekly_dates 10 20
    ∧ (20 - 20 % 7 + 7) ∈ generate_weekly_dates 10 20
    ∧ 20 < 20 - 20 % 7 + 7 :=
  c6_weekly_dates_sound 10 20 (by norm_num) (by norm_num)

/-- Claim C7: the range 2019/01/01 to 2019/01/14 generates exactly the four
Sunday ordinals 2018/12/30, 2019/01/06, 2019/01/13 and 2019/01/20 — the
Sunday before the start date, and one week past the week of the end date. -/
theorem c7_scenario_2019 :
    generate_weekly_dates (toOrdinal 2019 1 1) (toOrdinal 2019 1 14) =
      [toOrdinal 2018 12 30, toOrdinal 2019 1 6, toOrdinal 2019 1 13,
       toOrdinal 2019 1 20]
    ∧ (generate_weekly_dates (toOrdinal 2019 1 1) (toOrdinal 2019 1 14)).length = 4
    ∧ (∀ d ∈ generate_weekly_dates (toOrdinal 2019 1 1) (toOrdinal 2019 1 14),
        isSunday d = true)
    ∧ toOrdinal 2018 12 30 < toOrdinal 2019 1 1
    ∧ toOrdinal 2019 1 14 < toOrdinal 2019 1 20 := by
  have h1 : toOrdinal 2019 1 1 = 737060 := by decide
  have h2 : toOrdinal 2019 1 14 = 737073 := by decide
  have h3 : toOrdinal 2018 12 30 = 737058 := by decide
  have h4 : toOrdinal 2019 1 6 = 737065 := by decide
  have h5 : toOrdinal 2019 1 13 = 737072 := by decide
  have h6 : toOrdinal 2019 1 20 = 737079 := by decide
  have hlist : generate_weekly_dates 737060 737073
      = [737058, 737065, 737072, 737079] := by
    simp [generate_weekly_dates, pyWeekday, weeklyLoop_eq]
  rw [h1, h2, h3, h4, h5, h6, hlist]
  exact ⟨rfl, rfl, by decide, by decide, by decide⟩

/-- Claim C8: for every task and every environment of attempt outcomes, the
attempt count at resolution is at most the retry ceiling plus one (the
retry recursion stops once `retry < 3` fails), and the resolution is final:
an environment agreeing on every attempt actually performed — differing
only at or beyond the resolving attempt — yields the same resolved result,
for the nyt week task and the advisor detail task. -/
theorem c8_attempts_bounded_and_final
    (o o₂ : Nat → AttemptOutcome (List Book))
    (p p₂ : Nat → AttemptOutcome AdvisorInfo)
    (ho : ∀ i, i < (scrape_nyt_run o 0).2 → o₂ i = o i)
    (hp : ∀ i, i < (scrape_advisor_run p 0).2 → p₂ i = p i) :
    (scrape_nyt_run o 0).2 ≤ retryCeiling + 1
    ∧ (scrape_advisor_run p 0).2 ≤ retryCeiling + 1
    ∧ scrape_nyt_run o₂ 0 = scrape_nyt_run o 0
    ∧ scrape_advisor_run p₂ 0 = scrape_advisor_run p 0 := by
  refine ⟨?_, ?_, ?_, ?_⟩
  · have h := scrape_nyt_run_snd_le 4 o 0 (by omega)
    simp only [retryCeiling]
    omega
  · have h := scrape_advisor_run_snd_le 4 p 0 (by omega)
    simp only [retryCeiling]
    omega
  · exact scrape_nyt_run_frame 4 o o₂ 0 (by omega) (fun i _ h2 => ho i h2)
  · exact scrape_advisor_run_frame 4 p p₂ 0 (by omega) (fun i _ h2 => hp i h2)

/-- Witness for C8 at environments that succeed on the first attempt. -/
theorem c8_attempts_bounded_and_final_witness :
    (scrape_nyt_run (fun _ => AttemptOutcome.ok []) 0).2 ≤ retryCeiling + 1
    ∧ (scrape_advisor_run (fun _ => AttemptOutcome.ok []) 0).2 ≤ retryCeiling + 1
    ∧ scrape_nyt_run (fun _ => AttemptOutcome.ok []) 0
        = scrape_nyt_run (fun _ => AttemptOutcome.ok []) 0
    ∧ scrape_advisor_run (fun _ => AttemptOutcome.ok []) 0
        = scrape_advisor_run (fun _ => AttemptOutcome.ok []) 0 :=
  c8_attempts_bounded_and_final
    (fun _ => AttemptOutcome.ok []) (fun _ => AttemptOutcome.ok [])
    (fun _ => AttemptOutcome.ok []) (fun _ => AttemptOutcome.ok [])
    (fun _ _ => rfl) (fun _ _ => rfl)

/-- Claim C9: two 503 failures followed by a success resolve the week task
succeeded, carrying the extracted records, with attempt count 3. -/
theorem c9_503_twice_then_success :
    scrape_nyt_run c9_outcomes 0 = (Except.ok [sample_book], 3) := by
  simp [scrape_nyt_run_eq, c9_outcomes]

/-- Counterexample to claim C3 as stated: a 404 — a 4xx status that is
neither 5xx nor 429 — is retried: the task goes on to a second attempt and
resolves succeeded with attempt count 2, where the claim requires the 404
to be fatal for the task with no retry (attempt count 1, no record). -/
theorem c3_counterexample :
    scrape_nyt_run c3_outcomes 0 = (Except.ok [sample_book], 2)
    ∧ (scrape_nyt_run c3_outcomes 0).2 ≠ 1 := by
  have h : scrape_nyt_run c3_outcomes 0 = (Except.ok [sample_book], 2) := by
    simp [scrape_nyt_run_eq, c3_outcomes]
  exact ⟨h, by rw [h]; decide⟩

/-- Claim C3 (amended): `raise_for_status` raises for every non-2xx status
and the handlers catch every `requests.RequestException`, so a task whose
fetch yields any non-2xx status — 4xx and 5xx alike, 404 as much as 503 —
is retried exactly when the attempt index is below the ceiling, and
resolves failed otherwise; no status class is treated as fatal earlier than
any other. -/
theorem c3_any_non2xx_retried (o : Nat → AttemptOutcome (List Book))
    (p : Nat → AttemptOutcome (List String)) (r s t : Nat)
    (ho : o r = AttemptOutcome.err s) (hp : p r = AttemptOutcome.err t) :
    scrape_nyt_run o r
      = (if r < retryCeiling then scrape_nyt_run o (r + 1) else (Except.ok [], r + 1))
    ∧ scrape_city_run p r
      = (if r < retryCeiling then scrape_city_run p (r + 1) else (none, r + 1)) := by
  constructor
  · simp only [retryCeiling]
    rw [scrape_nyt_run_eq o r, ho]
  · simp only [retryCeiling]
    rw [scrape_city_run_eq p r, hp]

/-- Witness for C3 (amended) at a 404 on the first attempt. -/
theorem c3_any_non2xx_retried_witness :
    scrape_nyt_run (fun _ => AttemptOutcome.err 404) 0
      = (if 0 < retryCeiling then scrape_nyt_run (fun _ => AttemptOutcome.err 404) (0 + 1)
         else (Except.ok [], 0 + 1))
    ∧ scrape_city_run (fun _ => AttemptOutcome.err 404) 0
      = (if 0 < retryCeiling then scrape_city_run (fun _ => AttemptOutcome.err 404) (0 + 1)
         else (none, 0 + 1)) :=
  c3_any_non2xx_retried (fun _ => AttemptOutcome.err 404)
    (fun _ => AttemptOutcome.err 404) 0 404 404 rfl rfl

/-- Counterexample to claim C4 as stated: on a malformed page the nyt week
task is not retried at all — it resolves after a single attempt (attempt
count 1, not 2) — and the extraction exception escapes the task
(`Except.error`); the advisor city task also resolves failed after one
attempt with no retry. -/
theorem c4_counterexample :
    scrape_nyt_run (fun _ => AttemptOutcome.okMalformed) 0 = (Except.error (), 1)
    ∧ scrape_city_run (fun _ => AttemptOutcome.okMalformed) 0 = (none, 1) := by
  constructor
  · simp [scrape_nyt_run_eq]
  · simp [scrape_city_run_eq]

/-- Claim C4 (amended): a malformed page is never retried: the nyt task
lets the extraction exception escape past the task after that single
attempt (its handler only catches `requests.RequestException`; the stage
orchestrator catches the escaped exception per future at line 100), and the
advisor city task swallows it in its trailing `except Exception` handler
and resolves failed (None) after that single attempt. -/
theorem c4_malformed_not_retried (o : Nat → AttemptOutcome (List Book))
    (p : Nat → AttemptOutcome (List String)) (r : Nat)
    (ho : o r = AttemptOutcome.okMalformed) (hp : p r = AttemptOutcome.okMalformed) :
    scrape_nyt_run o r = (Except.error (), r + 1)
    ∧ scrape_city_run p r = (none, r + 1) := by
  constructor
  · rw [scrape_nyt_run_eq o r, ho]
  · rw [scrape_city_run_eq p r, hp]

/-- Witness for C4 (amended) at a malformed page on the first attempt. -/
theorem c4_malformed_not_retried_witness :
    scrape_nyt_run (fun _ => AttemptOutcome.okMalformed) 3 = (Except.error (), 3 + 1)
    ∧ scrape_city_run (fun _ => AttemptOutcome.okMalformed) 3 = (none, 3 + 1) :=
  c4_malformed_not_retried (fun _ => AttemptOutcome.okMalformed)
    (fun _ => AttemptOutcome.okMalformed) 3 rfl rfl

/-- Claim C10: a week whose fetch fails on all four attempts returns the
empty list — no exception, no failure marker — `scrape_all_best_sellers`
appends that empty list exactly as it would a succeeded week, and the
returned value is identical to that of a week whose page genuinely listed
zero books, so the two are indistinguishable at the public interface and no
per-week failure record exists. -/
theorem c10_failed_week_indistinguishable (o : Nat → AttemptOutcome (List Book))
    (h : ∀ i, i ≤ 3 → isErrAttempt (o i) = true)
    (ws : List (Except Unit (List Book))) :
    scrape_nyt_run o 0 = (Except.ok [], 4)
    ∧ scrape_all_collect (ws ++ [(scrape_nyt_run o 0).1])
        = scrape_all_collect ws ++ [[]]
    ∧ (scrape_nyt_run o 0).1 = (scrape_nyt_run (fun _ => AttemptOutcome.ok []) 0).1 := by
  obtain ⟨s0, e0⟩ := exists_err (o 0) (h 0 (by omega))
  obtain ⟨s1, e1⟩ := exists_err (o 1) (h 1 (by omega))
  obtain ⟨s2, e2⟩ := exists_err (o 2) (h 2 (by omega))
  obtain ⟨s3, e3⟩ := exists_err (o 3) (h 3 (by omega))
  have hrun : scrape_nyt_run o 0 = (Except.ok [], 4) := by
    simp [scrape_nyt_run_eq, e0, e1, e2, e3]
  refine ⟨hrun, ?_, ?_⟩
  · rw [hrun]
    exact scrape_all_collect_append_ok ws []
  · rw [hrun]
    simp [scrape_nyt_run_eq]

/-- Witness for C10 at an environment answering 503 on every attempt. -/
theorem c10_failed_week_indistinguishable_witness :
    scrape_nyt_run (fun _ => AttemptOutcome.err 503) 0 = (Except.ok [], 4)
    ∧ scrape_all_collect ([] ++ [(scrape_nyt_run (fun _ => AttemptOutcome.err 503) 0).1])
        = scrape_all_collect [] ++ [[]]
    ∧ (scrape_nyt_run (fun _ => AttemptOutcome.err 503) 0).1
        = (scrape_nyt_run (fun _ => AttemptOutcome.ok []) 0).1 :=
  c10_failed_week_indistinguishable (fun _ => AttemptOutcome.err 503)
    (fun _ _ => rfl) []

/-- Counterexample to claim C1 as stated: a city stage given N = 1 input
whose task permanently fails (503 on all four attempts).  The task resolves
None, the collection loop of `main` skips it, and the stage records no
permanently-failed list, so the count of inputs appearing in the succeeded
collection plus the recorded permanently-failed inputs is 0, not 1: the
input is silently dropped. -/
theorem c1_counterexample :
    List.countP acceptedByMain
        [(scrape_city_run (fun _ => AttemptOutcome.err 503) 0).1]
      + (advisor_city_stage
          [(scrape_city_run (fun _ => AttemptOutcome.err 503) 0).1]).2.length
      ≠ 1 := by
  have h : scrape_city_run (fun _ => AttemptOutcome.err 503) 0 = (none, 4) := by
    simp [scrape_city_run_eq]
  rw [h]
  simp [acceptedByMain, advisor_city_stage]

/-- Claim C1 (amended): the stages keep no permanently-failed record — the
failed list of the observable stage aggregate is always empty, failures
being only logged — and the per-input accounting is: in the advisor city
stage an input is counted into the collected output iff its result is
truthy, so accepted count plus dropped count is N with permanently failed
inputs among the dropped; in the nyt stage the results list has exactly one
entry per week future that returned normally (a permanently failed fetch
contributes an empty entry to the succeeded side), and a week whose
extraction raised is dropped. -/
theorem c1_no_failed_list_and_counts (rs : List (Option (List String)))
    (ws : List (Except Unit (List Book))) :
    (advisor_city_stage rs).2 = []
    ∧ List.countP acceptedByMain rs
        + List.countP (fun r => !acceptedByMain r) rs = rs.length
    ∧ (scrape_all_collect ws).length = List.countP Except.isOk ws := by
  refine ⟨rfl, ?_, ?_⟩
  · induction rs with
    | nil => rfl
    | cons r rest ih =>
      cases hr : acceptedByMain r <;>
        simp [List.countP_cons, hr] <;> omega
  · induction ws with
    | nil => rfl
    | cons w rest ih =>
      cases w with
      | ok l =>
        simp [scrape_all_collect, List.countP_cons, Except.isOk, Except.toBool, ih]
      | error e =>
        simp [scrape_all_collect, List.countP_cons, Except.isOk, Except.toBool, ih]

/-- Counterexample to claim C5 as stated: with the root directory listing
yielding zero links, `main` of the advisor pipeline logs the error
`No cities found.` and returns before any save: the run reports an error
and writes no output file, in particular not a header-only one. -/
theorem c5_counterexample :
    advisor_main_run (some []) (fun _ _ => AttemptOutcome.err 503)
        (fun _ _ => AttemptOutcome.err 503)
      = Except.error "No cities found."
    ∧ advisor_main_run (some []) (fun _ _ => AttemptOutcome.err 503)
        (fun _ _ => AttemptOutcome.err 503)
      ≠ Except.ok [fieldnames] := by
  constructor
  · rfl
  · simp [advisor_main_run]

/-- Claim C5 (amended): if the root directory listing returns zero links —
or fails outright, returning None — the advisor pipeline terminates early
with the error report `No cities found.` and writes no output file at all,
whatever the attempt environments of the later stages. -/
theorem c5_zero_links_reports_error
    (cityOut : String → Nat → AttemptOutcome (List String))
    (advOut : String → Nat → AttemptOutcome AdvisorInfo) :
    advisor_main_run (some []) cityOut advOut = Except.error "No cities found."
    ∧ advisor_main_run none cityOut advOut = Except.error "No cities found." :=
  ⟨rfl, rfl⟩

/-- Claim C2 is a code bug; this evaluates the code at the failing inputs.
With one bestseller record, the save of the nyt `main` raises
AttributeError: `main` flattens the per-week lists but `save_to_csv`
iterates its argument twice, so each record dict is itself iterated,
yielding its keys, and `writerow` is applied to plain strings.  A completed
advisor run with one advisor record raises the same way; even a correctly
nested advisor row would raise ValueError, because the writer is
constructed with the bestseller fieldnames for both pipelines.  Only an
empty record set produces a file, and its header is the bestseller header
regardless of pipeline — and that header differs from the Weeks-on-List
field the claim states. -/
theorem c2_save_crashes_on_any_record :
    nyt_main_save [[sample_book]] = Except.error "AttributeError"
    ∧ advisor_main_run (some ["/x"]) (fun _ _ => AttemptOutcome.ok ["/a"])
        (fun _ _ => AttemptOutcome.ok sample_advisor)
      = Except.error "AttributeError"
    ∧ writeRows [PyVal.dict sample_advisor] = Except.error "ValueError"
    ∧ nyt_main_save [] = Except.ok [fieldnames]
    ∧ fieldnames ≠ ["First", "Last", "Street", "City", "State", "Telephone"] := by
  refine ⟨rfl, ?_, rfl, rfl, by decide⟩
  simp [advisor_main_run, scrape_city_run_eq, scrape_advisor_run_eq,
    collect_city_links, acceptedByMain, sample_advisor, save_to_csv,
    writeRows, writerow, pyIter]
  rfl
